import Mathlib

/-
  Shallow embedding of zxrs/speech (src/main.rs), a Win32 text-to-speech
  utility.  External collaborators (Win32 controls, the WinRT speech
  engine, the media player, the save dialog and the file system) are
  modelled by an `Env` record of oracle outcomes; the repository's
  functions become Lean functions over `Env`, returning `Except Err`
  results together with an event trace and the updated `STOP` registry
  (the global `Mutex<Vec<Sender<()>>>`).  UTF-16 code units and bytes are
  modelled as `Nat`.
-/

deriving instance DecidableEq for Except

namespace Speech

/-- Error outcomes of the fallible operations.  Each constructor names the
    concrete failing call in `main.rs` (`anyhow` contexts, `ensure!`
    messages and `windows` API errors are untyped there, so we name the
    failure site). -/
inductive Err where
  /-- `OnceLock::get` returned `None` ("no handle" / "no handle."). -/
  | noHandle
  /-- `ensure!(ret.0 >= 0, "failed to get selected item index.")` failed
      (`CB_GETCURSEL` reported no selection). -/
  | noSelection
  /-- `SpeechSynthesizer::AllVoices()` failed. -/
  | allVoicesFailed
  /-- the `filter_map` over the catalog found no match ("no voice."). -/
  | noVoice
  /-- `ensure!(0.5 <= ret && ret <= 2.5, "invalid speaking rate.")` failed. -/
  | invalidRate
  /-- `HSTRING::from_wide` failed. -/
  | hstringErr
  /-- `SpeechSynthesizer::new()` failed. -/
  | synthNewErr
  /-- `synth.SetVoice(..)` failed. -/
  | setVoiceErr
  /-- `synth.Options()` failed. -/
  | optionsErr
  /-- `Options().SetSpeakingRate(..)` failed. -/
  | setRateErr
  /-- `SynthesizeTextToStreamAsync(..).get()` failed (the engine rejected
      the request or the asynchronous operation errored). -/
  | synthesisFailed
  /-- `stream.ContentType()` failed. -/
  | contentTypeErr
  /-- `MediaPlayer::new()` failed. -/
  | playerNewErr
  /-- `MediaSource::CreateFromStream(..)` failed. -/
  | mediaSourceErr
  /-- `player.SetSource(..)` failed. -/
  | setSourceErr
  /-- `player.MediaEnded(..)` listener registration failed. -/
  | mediaEndedErr
  /-- `player.MediaFailed(..)` listener registration failed. -/
  | mediaFailedErr
  /-- `player.Play()` failed. -/
  | playErr
  /-- `rx.recv()` failed. -/
  | recvErr
  /-- `player.Close()` failed. -/
  | closeErr
  /-- `player.RemoveMediaEnded(..)` failed. -/
  | removeEndedErr
  /-- `player.RemoveMediaFailed(..)` failed. -/
  | removeFailedErr
  /-- `GetSaveFileNameW(..).ok()` failed: the dialog was cancelled or
      errored (the spec's `PathRequired`). -/
  | pathRequired
  /-- `DataReader::CreateDataReader(..)` failed. -/
  | readerNewErr
  /-- `stream.Size()` failed. -/
  | sizeErr
  /-- `reader.LoadAsync(size).get()` failed. -/
  | loadErr
  /-- `reader.ReadBuffer(size)` failed. -/
  | readErr
  /-- `.cast::<IBufferByteAccess>()` failed. -/
  | castErr
  /-- `buffer.Buffer()` failed. -/
  | bufferErr
  /-- `std::fs::write(..)` failed (the spec's `IoError`). -/
  | ioError
  /-- `file_path.file_name()` returned `None` ("no file name."). -/
  | noFileName
  deriving Repr, DecidableEq

/-- The spec's `VoiceNotFound` class: the selection resolves to no catalog
    entry, including "nothing selected / unexpected index" (the spec folds
    the `CB_GETCURSEL` failure and the empty catalog match into one error
    kind, since `anyhow` errors carry only messages). -/
def Err.isVoiceNotFound : Err → Bool
  | .noSelection => true
  | .noVoice => true
  | _ => false

/-- A catalog entry (`VoiceInformation`).  `displayName` is `none` when the
    `DisplayName()` call fails (such entries are skipped by the
    `filter_map` in `get_selected_voice_information`). -/
structure VoiceInformation where
  displayName : Option (List Nat)
  deriving Repr, DecidableEq

/-- The synthesized stream as observed by this program: its declared
    64-bit `Size()` and whether `ContentType()` succeeds. -/
structure SpeechSynthesisStream where
  size : Nat
  contentTypeOk : Bool
  deriving Repr, DecidableEq

/-- Observable side effects, in program order. -/
inductive Ev where
  /-- `SendMessageW(edit, WM_SETTEXT, None, None)`: the edit control's text
      is set to `t` (the null `lparam` sets it empty). -/
  | setText (t : List Nat)
  /-- a `tx.send(())` on the completion-signal sender `sid`. -/
  | signal (sid : Nat)
  /-- `SynthesizeTextToStreamAsync` invoked on `text` (the engine call). -/
  | synthCall (text : List Nat)
  /-- `MediaPlayer::new()` succeeded: a player now exists. -/
  | playerCreated
  /-- the session's sender `sid` was pushed into `STOP`. -/
  | registered (sid : Nat)
  /-- `player.Play()` succeeded. -/
  | playStarted
  /-- `std::fs::write(path, bytes)` succeeded. -/
  | fileWrite (path : List Nat) (bytes : List Nat)
  /-- `MessageBoxW` shown; `name` is the saved file's display name embedded
      in the localized confirmation text. -/
  | messageBox (name : List Nat)
  deriving Repr, DecidableEq

/-- Oracle outcomes of every external call the program makes, plus the
    current contents of the UI controls.  A `Bool` field is `true` when the
    corresponding fallible call succeeds. -/
structure Env where
  /-- `EDIT_HWND` is initialized. -/
  editHwnd : Bool
  /-- the edit control's text, UTF-16 units, no terminating NUL
      (`GetWindowTextLengthW` reports its length). -/
  editText : List Nat
  /-- `COMBOBOX_HWND` is initialized. -/
  comboHwnd : Bool
  /-- `CB_GETCURSEL` result (negative means no selection / `CB_ERR`). -/
  curSel : Int
  /-- the text `CB_GETLBTEXT` stores for the current selection. -/
  selText : List Nat
  allVoicesOk : Bool
  /-- the catalog returned by `SpeechSynthesizer::AllVoices()`. -/
  voices : List VoiceInformation
  /-- `TRACKBAR_HWND` is initialized. -/
  trackHwnd : Bool
  /-- `TBM_GETPOS` (message 1024) result. -/
  trackPos : Int
  hstringOk : Bool
  synthNewOk : Bool
  setVoiceOk : Bool
  optionsOk : Bool
  setRateOk : Bool
  /-- outcome of `SynthesizeTextToStreamAsync(text).get()`. -/
  synthResult : List Nat → Except Err SpeechSynthesisStream
  playerNewOk : Bool
  mediaSourceOk : Bool
  setSourceOk : Bool
  mediaEndedOk : Bool
  mediaFailedOk : Bool
  playOk : Bool
  recvOk : Bool
  closeOk : Bool
  removeEndedOk : Bool
  removeFailedOk : Bool
  /-- `GetSaveFileNameW`: `none` when the dialog is abandoned or fails,
      otherwise the buffer it filled (UTF-16 units; the path ends at the
      first 0). -/
  saveDialog : Option (List Nat)
  readerNewOk : Bool
  sizeOk : Bool
  loadOk : Bool
  readOk : Bool
  castOk : Bool
  bufferOk : Bool
  writeOk : Bool
  /-- byte `i` of the loaded audio buffer (`slice::from_raw_parts` reads
      exactly `size` bytes from it). -/
  streamByte : Nat → Nat

/-- `get_selected_voice_information` (main.rs:89-115): reads the combobox
    selection, then scans `AllVoices()` for the first entry whose
    `DisplayName()` equals the selected string (exact `==` on the UTF-16
    slices); `filter_map(..).next()` is `List.find?`. -/
def get_selected_voice_information (env : Env) : Except Err VoiceInformation :=
  if env.comboHwnd = false then .error .noHandle
  else if env.curSel < 0 then .error .noSelection
  else if env.allVoicesOk = false then .error .allVoicesFailed
  else
    match env.voices.find? (fun v => v.displayName == some env.selText) with
    | some v => .ok v
    | none => .error .noVoice

/-- `get_speaking_rate` (main.rs:117-122): the trackbar position divided by
    10 (exact in `f64` for the integer positions involved, so modelled in
    `ℚ`), accepted iff it lies in [0.5, 2.5]. -/
def get_speaking_rate (env : Env) : Except Err ℚ :=
  if env.trackHwnd = false then .error .noHandle
  else if 0.5 ≤ (env.trackPos : ℚ) / 10 ∧ (env.trackPos : ℚ) / 10 ≤ 2.5
  then .ok ((env.trackPos : ℚ) / 10)
  else .error .invalidRate

/-- `speech_synthesis_stream` (main.rs:124-133): HSTRING conversion,
    synthesizer construction, voice resolution, rate validation, then the
    engine call.  The trace records the engine invocation. -/
def speech_synthesis_stream (env : Env) (source : List Nat) :
    Except Err SpeechSynthesisStream × List Ev :=
  if env.hstringOk = false then (.error .hstringErr, [])
  else if env.synthNewOk = false then (.error .synthNewErr, [])
  else
    match get_selected_voice_information env with
    | .error e => (.error e, [])
    | .ok _voice =>
      if env.setVoiceOk = false then (.error .setVoiceErr, [])
      else
        match get_speaking_rate env with
        | .error e => (.error e, [])
        | .ok _rate =>
          if env.optionsOk = false then (.error .optionsErr, [])
          else if env.setRateOk = false then (.error .setRateErr, [])
          else (env.synthResult source, [Ev.synthCall source])

/-- `get_edit_control_text` (main.rs:218-224): allocates `len + 1` zeroed
    units and lets `GetWindowTextW` fill the text plus its NUL terminator. -/
def get_edit_control_text (env : Env) : Except Err (List Nat) :=
  if env.editHwnd = false then .error .noHandle
  else .ok (env.editText ++ [0])

/-- The body of the closure `speech` spawns (main.rs:137-162), for the
    session whose completion-signal sender is `sid`: synthesis, player
    construction, source binding, registration of `sid` into `STOP`,
    listener registration, `Play()`, the blocking `rx.recv()`, and
    teardown.  Returns the thread's `Result`, the updated `STOP` contents,
    and the event trace. -/
def session_body (env : Env) (text : List Nat) (stop : List Nat) (sid : Nat) :
    Except Err Unit × List Nat × List Ev :=
  match speech_synthesis_stream env text with
  | (.error e, evs) => (.error e, stop, evs)
  | (.ok stream, evs) =>
    if env.playerNewOk = false then (.error .playerNewErr, stop, evs)
    else
      let evs := evs ++ [Ev.playerCreated]
      if stream.contentTypeOk = false then (.error .contentTypeErr, stop, evs)
      else if env.mediaSourceOk = false then (.error .mediaSourceErr, stop, evs)
      else if env.setSourceOk = false then (.error .setSourceErr, stop, evs)
      else
        let stop := stop ++ [sid]
        let evs := evs ++ [Ev.registered sid]
        if env.mediaEndedOk = false then (.error .mediaEndedErr, stop, evs)
        else if env.mediaFailedOk = false then (.error .mediaFailedErr, stop, evs)
        else if env.playOk = false then (.error .playErr, stop, evs)
        else
          let evs := evs ++ [Ev.playStarted]
          if env.recvOk = false then (.error .recvErr, stop, evs)
          else if env.closeOk = false then (.error .closeErr, stop, evs)
          else if env.removeEndedOk = false then (.error .removeEndedErr, stop, evs)
          else if env.removeFailedOk = false then (.error .removeFailedErr, stop, evs)
          else (.ok (), stop, evs)

/-- `speech` (main.rs:135-164): captures the edit text (the only step
    before `thread::spawn`, whose error propagates to the caller via `?`),
    then spawns the session body and returns `Ok(())` —  the spawned
    thread's own `Result` is discarded with its `JoinHandle`. -/
def speech (env : Env) (stop : List Nat) (sid : Nat) :
    Except Err Unit × List Nat × List Ev :=
  match get_edit_control_text env with
  | .error e => (.error e, stop, [])
  | .ok text =>
    let r := session_body env text stop sid
    (.ok (), r.2.1, r.2.2)

/-- The `while !stop.is_empty() { stop.pop(); tx.send(()) }` loop of
    `clear_edit_control_text`: pops from the back, signalling each sender,
    until the vector is empty. -/
def drain : List Nat → List Ev
  | [] => []
  | sid :: rest => drain rest ++ [Ev.signal sid]

/-- `clear_edit_control_text` (main.rs:226-236): sets the edit control's
    text to empty (`WM_SETTEXT` with a null string), then drains `STOP`,
    sending on every popped sender (`_ = tx.send(())` ignores dead
    receivers). -/
def clear_edit_control_text (env : Env) (stop : List Nat) :
    Except Err Unit × List Nat × List Ev :=
  if env.editHwnd = false then (.error .noHandle, stop, [])
  else (.ok (), [], Ev.setText [] :: drain stop)

/-- `get_save_file_path` (main.rs:166-185): runs the save dialog; on
    success the chosen path is the buffer's units up to the first 0
    (`decode_utf16(buf.iter().take_while(|v| *v != &0))`). -/
def get_save_file_path (env : Env) : Except Err (List Nat) :=
  match env.saveDialog with
  | none => .error .pathRequired
  | some buf => .ok (buf.takeWhile (fun c => c != 0))

/-- Windows path separators recognized by `std::path`. -/
def isSep (c : Nat) : Bool := c == 92 || c == 47

/-- Models `PathBuf::file_name` followed by `to_string_lossy` for ordinary
    dialog-produced paths (no `.`/`..`-normalization of interior
    components and no verbatim prefixes): trailing separators are dropped,
    the last component is returned, and `none` is returned when that
    component is empty or is `..`. -/
def fileName (path : List Nat) : Option (List Nat) :=
  let rev := path.reverse.dropWhile isSep
  let comp := (rev.takeWhile (fun c => !isSep c)).reverse
  if comp = [] ∨ comp = [46, 46] then none else some comp

/-- `save_to_wav` (main.rs:187-206): dialog, text capture, synchronous
    synthesis, `size = stream.Size() as u32` (64-bit size truncated modulo
    2^32), load/read of exactly `size` bytes, `std::fs::write`, then the
    confirmation message box naming the written file. -/
def save_to_wav (env : Env) : Except Err Unit × List Ev :=
  match get_save_file_path env with
  | .error e => (.error e, [])
  | .ok file_path =>
    match get_edit_control_text env with
    | .error e => (.error e, [])
    | .ok text =>
      match speech_synthesis_stream env text with
      | (.error e, evs) => (.error e, evs)
      | (.ok stream, evs) =>
        if env.readerNewOk = false then (.error .readerNewErr, evs)
        else if env.sizeOk = false then (.error .sizeErr, evs)
        else
          let size := stream.size % 2 ^ 32
          if env.loadOk = false then (.error .loadErr, evs)
          else if env.readOk = false then (.error .readErr, evs)
          else if env.castOk = false then (.error .castErr, evs)
          else if env.bufferOk = false then (.error .bufferErr, evs)
          else
            let bytes := (List.range size).map env.streamByte
            if env.writeOk = false then (.error .ioError, evs)
            else
              let evs := evs ++ [Ev.fileWrite file_path bytes]
              match fileName file_path with
              | none => (.error .noFileName, evs)
              | some n => (.ok (), evs ++ [Ev.messageBox n])

/-- `loword` (main.rs:492-494): `((dword << 16) >> 16) as u16` on `u32`. -/
def loword (dword : Nat) : Nat :=
  (dword % 2 ^ 32) * 2 ^ 16 % 2 ^ 32 / 2 ^ 16

/-- `command` (main.rs:238-250): dispatches `WM_COMMAND` by the low word of
    `wparam` to the play / clear / save handlers.  `save_to_wav` does not
    touch `STOP`. -/
def command (env : Env) (stop : List Nat) (sid : Nat) (wparam : Nat) :
    Except Err Unit × List Nat × List Ev :=
  let id := loword wparam
  if id = 5890 then speech env stop sid
  else if id = 5891 then clear_edit_control_text env stop
  else if id = 5892 then
    let r := save_to_wav env
    (r.1, stop, r.2)
  else (.ok (), stop, [])

/-- A fully initialized environment: all controls created, a one-voice
    catalog matching the selection "A", trackbar at 10, every external
    call succeeding, the engine producing a 4-byte stream, the dialog
    choosing `C:\a.wav`. -/
def envOk : Env where
  editHwnd := true
  editText := [104, 101, 108, 108, 111]
  comboHwnd := true
  curSel := 0
  selText := [65]
  allVoicesOk := true
  voices := [⟨some [65]⟩]
  trackHwnd := true
  trackPos := 10
  hstringOk := true
  synthNewOk := true
  setVoiceOk := true
  optionsOk := true
  setRateOk := true
  synthResult := fun _ => .ok ⟨4, true⟩
  playerNewOk := true
  mediaSourceOk := true
  setSourceOk := true
  mediaEndedOk := true
  mediaFailedOk := true
  playOk := true
  recvOk := true
  closeOk := true
  removeEndedOk := true
  removeFailedOk := true
  saveDialog := some [67, 58, 92, 97, 46, 119, 97, 118]
  readerNewOk := true
  sizeOk := true
  loadOk := true
  readOk := true
  castOk := true
  bufferOk := true
  writeOk := true
  streamByte := fun _ => 0

/-- `envOk` with `EDIT_HWND` not yet initialized. -/
def envNoEdit : Env := { envOk with editHwnd := false }

/-- `envOk` with the `MediaEnded` listener registration failing. -/
def envBadListener : Env := { envOk with mediaEndedOk := false }

/-- `envOk` with the trackbar at raw position 5. -/
def envRate5 : Env := { envOk with trackPos := 5 }

/-- `envOk` with no combobox selection (`CB_GETCURSEL` returned `CB_ERR`). -/
def envNoSel : Env := { envOk with curSel := -1 }

/-- `envOk` with the save dialog abandoned. -/
def envNoDialog : Env := { envOk with saveDialog := none }

/-- `envOk` with the engine declaring a stream of size `2^32`. -/
def envBigStream : Env := { envOk with synthResult := fun _ => .ok ⟨2 ^ 32, true⟩ }

/-- `envOk` with the engine declaring a stream of size `2^32 + 3`. -/
def envBigStream3 : Env := { envOk with synthResult := fun _ => .ok ⟨2 ^ 32 + 3, true⟩ }

/-  Helper lemmas  -/

theorem drain_eq_reverse_map (stop : List Nat) :
    drain stop = (stop.map Ev.signal).reverse := by
  induction stop with
  | nil => rfl
  | cons x xs ih => simp [drain, ih]

theorem signal_mem_drain {s : Nat} {stop : List Nat} :
    Ev.signal s ∈ drain stop ↔ s ∈ stop := by
  simp [drain_eq_reverse_map]

/-- `speech_synthesis_stream` either fails with an empty trace or hands the
    engine's own outcome back together with the engine-call event. -/
theorem sss_cases (env : Env) (t : List Nat) :
    (∃ e, speech_synthesis_stream env t = (.error e, [])) ∨
      speech_synthesis_stream env t = (env.synthResult t, [Ev.synthCall t]) := by
  unfold speech_synthesis_stream
  repeat' split
  all_goals first
    | exact Or.inl ⟨_, rfl⟩
    | exact Or.inr rfl

theorem sss_eq_of_ok {env : Env} {t : List Nat} {s : SpeechSynthesisStream}
    (h : (speech_synthesis_stream env t).1 = .ok s) :
    speech_synthesis_stream env t = (.ok s, [Ev.synthCall t]) := by
  rcases sss_cases env t with ⟨e, he⟩ | hc
  · rw [he] at h
    simp at h
  · rw [hc] at h ⊢
    simp only [Prod.mk.injEq] at h ⊢
    exact ⟨h, trivial⟩

theorem signal_not_mem_sss (env : Env) (t : List Nat) (s : Nat) :
    Ev.signal s ∉ (speech_synthesis_stream env t).2 := by
  rcases sss_cases env t with ⟨e, he⟩ | hc
  · simp [he]
  · simp [hc]

/-- Exhaustive enumeration of the spawned session's outcomes: failure
    before the engine call, after it, after player creation, after
    registration, after `Play()`, or clean completion. -/
theorem session_body_cases (env : Env) (t stop : List Nat) (sid : Nat) :
    (∃ e, session_body env t stop sid = (.error e, stop, [])) ∨
    (∃ e, session_body env t stop sid = (.error e, stop, [Ev.synthCall t])) ∨
    (∃ e, session_body env t stop sid =
      (.error e, stop, [Ev.synthCall t, Ev.playerCreated])) ∨
    (∃ e, session_body env t stop sid =
      (.error e, stop ++ [sid], [Ev.synthCall t, Ev.playerCreated, Ev.registered sid])) ∨
    (∃ e, session_body env t stop sid =
      (.error e, stop ++ [sid],
        [Ev.synthCall t, Ev.playerCreated, Ev.registered sid, Ev.playStarted])) ∨
    session_body env t stop sid =
      (.ok (), stop ++ [sid],
        [Ev.synthCall t, Ev.playerCreated, Ev.registered sid, Ev.playStarted]) := by
  rcases sss_cases env t with ⟨e, he⟩ | hc
  · refine Or.inl ⟨e, ?_⟩
    unfold session_body
    rw [he]
  · cases hr : env.synthResult t with
    | error e =>
      refine Or.inr (Or.inl ⟨e, ?_⟩)
      unfold session_body
      rw [hc, hr]
    | ok stream =>
      have key : session_body env t stop sid =
          (if env.playerNewOk = false then
            (.error Err.playerNewErr, stop, [Ev.synthCall t])
          else if stream.contentTypeOk = false then
            (.error Err.contentTypeErr, stop, [Ev.synthCall t, Ev.playerCreated])
          else if env.mediaSourceOk = false then
            (.error Err.mediaSourceErr, stop, [Ev.synthCall t, Ev.playerCreated])
          else if env.setSourceOk = false then
            (.error Err.setSourceErr, stop, [Ev.synthCall t, Ev.playerCreated])
          else if env.mediaEndedOk = false then
            (.error Err.mediaEndedErr, stop ++ [sid],
              [Ev.synthCall t, Ev.playerCreated, Ev.registered sid])
          else if env.mediaFailedOk = false then
            (.error Err.mediaFailedErr, stop ++ [sid],
              [Ev.synthCall t, Ev.playerCreated, Ev.registered sid])
          else if env.playOk = false then
            (.error Err.playErr, stop ++ [sid],
              [Ev.synthCall t, Ev.playerCreated, Ev.registered sid])
          else if env.recvOk = false then
            (.error Err.recvErr, stop ++ [sid],
              [Ev.synthCall t, Ev.playerCreated, Ev.registered sid, Ev.playStarted])
          else if env.closeOk = false then
            (.error Err.closeErr, stop ++ [sid],
              [Ev.synthCall t, Ev.playerCreated, Ev.registered sid, Ev.playStarted])
          else if env.removeEndedOk = false then
            (.error Err.removeEndedErr, stop ++ [sid],
              [Ev.synthCall t, Ev.playerCreated, Ev.registered sid, Ev.playStarted])
          else if env.removeFailedOk = false then
            (.error Err.removeFailedErr, stop ++ [sid],
              [Ev.synthCall t, Ev.playerCreated, Ev.registered sid, Ev.playStarted])
          else
            (.ok (), stop ++ [sid],
              [Ev.synthCall t, Ev.playerCreated, Ev.registered sid, Ev.playStarted])) := by
        unfold session_body
        rw [hc, hr]
        rfl
      by_cases h1 : env.playerNewOk = false
      · rw [if_pos h1] at key
        exact Or.inr (Or.inl ⟨_, key⟩)
      rw [if_neg h1] at key
      by_cases h2 : stream.contentTypeOk = false
      · rw [if_pos h2] at key
        exact Or.inr (Or.inr (Or.inl ⟨_, key⟩))
      rw [if_neg h2] at key
      by_cases h3 : env.mediaSourceOk = false
      · rw [if_pos h3] at key
        exact Or.inr (Or.inr (Or.inl ⟨_, key⟩))
      rw [if_neg h3] at key
      by_cases h4 : env.setSourceOk = false
      · rw [if_pos h4] at key
        exact Or.inr (Or.inr (Or.inl ⟨_, key⟩))
      rw [if_neg h4] at key
      by_cases h5 : env.mediaEndedOk = false
      · rw [if_pos h5] at key
        exact Or.inr (Or.inr (Or.inr (Or.inl ⟨_, key⟩)))
      rw [if_neg h5] at key
      by_cases h6 : env.mediaFailedOk = false
      · rw [if_pos h6] at key
        exact Or.inr (Or.inr (Or.inr (Or.inl ⟨_, key⟩)))
      rw [if_neg h6] at key
      by_cases h7 : env.playOk = false
      · rw [if_pos h7] at key
        exact Or.inr (Or.inr (Or.inr (Or.inl ⟨_, key⟩)))
      rw [if_neg h7] at key
      by_cases h8 : env.recvOk = false
      · rw [if_pos h8] at key
        exact Or.inr (Or.inr (Or.inr (Or.inr (Or.inl ⟨_, key⟩))))
      rw [if_neg h8] at key
      by_cases h9 : env.closeOk = false
      · rw [if_pos h9] at key
        exact Or.inr (Or.inr (Or.inr (Or.inr (Or.inl ⟨_, key⟩))))
      rw [if_neg h9] at key
      by_cases h10 : env.removeEndedOk = false
      · rw [if_pos h10] at key
        exact Or.inr (Or.inr (Or.inr (Or.inr (Or.inl ⟨_, key⟩))))
      rw [if_neg h10] at key
      by_cases h11 : env.removeFailedOk = false
      · rw [if_pos h11] at key
        exact Or.inr (Or.inr (Or.inr (Or.inr (Or.inl ⟨_, key⟩))))
      rw [if_neg h11] at key
      exact Or.inr (Or.inr (Or.inr (Or.inr (Or.inr (key)))))

/-- The session's sender lands in `STOP` exactly when the registration step
    was reached; earlier failures leave the registry unchanged. -/
theorem session_body_registry (env : Env) (t stop : List Nat) (sid : Nat) :
    (Ev.registered sid ∈ (session_body env t stop sid).2.2 →
      (session_body env t stop sid).2.1 = stop ++ [sid]) ∧
    (Ev.registered sid ∉ (session_body env t stop sid).2.2 →
      (session_body env t stop sid).2.1 = stop) := by
  rcases session_body_cases env t stop sid with
    ⟨e, h⟩ | ⟨e, h⟩ | ⟨e, h⟩ | ⟨e, h⟩ | ⟨e, h⟩ | h
  all_goals rw [h]
  all_goals simp

/-- The spawned session never sends on a completion signal itself during
    setup (listener callbacks and `cancel_all` are the only senders). -/
theorem signal_not_mem_session (env : Env) (t stop : List Nat) (sid s : Nat) :
    Ev.signal s ∉ (session_body env t stop sid).2.2 := by
  rcases session_body_cases env t stop sid with
    ⟨e, h⟩ | ⟨e, h⟩ | ⟨e, h⟩ | ⟨e, h⟩ | ⟨e, h⟩ | h
  all_goals rw [h]
  all_goals simp

theorem gsvi_ok_name {env : Env} {v : VoiceInformation}
    (h : get_selected_voice_information env = .ok v) :
    v.displayName = some env.selText := by
  unfold get_selected_voice_information at h
  repeat' split at h
  any_goals exact Except.noConfusion h
  rename_i v1 heq
  injection h with h
  subst h
  simpa using List.find?_some heq

theorem gsvi_ok_iff (env : Env) (hc : env.comboHwnd = true) (ha : env.allVoicesOk = true) :
    (∃ v, get_selected_voice_information env = .ok v) ↔
      (0 ≤ env.curSel ∧ ∃ v ∈ env.voices, v.displayName = some env.selText) := by
  unfold get_selected_voice_information
  rw [hc, ha]
  rw [if_neg (by simp : ¬((true : Bool) = false))]
  by_cases hs : env.curSel < 0
  · rw [if_pos hs]
    constructor
    · rintro ⟨v, hv⟩
      exact Except.noConfusion hv
    · rintro ⟨h0, -⟩
      omega
  · rw [if_neg hs, if_neg (by simp : ¬((true : Bool) = false))]
    cases hf : env.voices.find? (fun v => v.displayName == some env.selText) with
    | none =>
      rw [List.find?_eq_none] at hf
      constructor
      · rintro ⟨v, hv⟩
        exact Except.noConfusion hv
      · rintro ⟨-, v, hm, hd⟩
        exact absurd (by simpa using hd) (hf v hm)
    | some v =>
      constructor
      · intro _
        refine ⟨by omega, v, List.mem_of_find?_eq_some hf, ?_⟩
        simpa using List.find?_some hf
      · intro _
        exact ⟨v, rfl⟩

theorem gsvi_voice_not_found (env : Env) (hc : env.comboHwnd = true)
    (ha : env.allVoicesOk = true)
    (hv : env.curSel < 0 ∨ ∀ v ∈ env.voices, v.displayName ≠ some env.selText) :
    ∃ e, get_selected_voice_information env = .error e ∧ e.isVoiceNotFound = true := by
  unfold get_selected_voice_information
  rw [hc, ha]
  rw [if_neg (by simp : ¬((true : Bool) = false))]
  by_cases hs : env.curSel < 0
  · exact ⟨.noSelection, by rw [if_pos hs], rfl⟩
  · rcases hv with hv | hv
    · exact absurd hv hs
    · refine ⟨.noVoice, ?_, rfl⟩
      have hf : env.voices.find? (fun v => v.displayName == some env.selText) = none := by
        rw [List.find?_eq_none]
        intro v hm
        simpa using hv v hm
      rw [if_neg hs, if_neg (by simp : ¬((true : Bool) = false)), hf]

theorem sss_gsvi_error {env : Env} {e : Err} (t : List Nat)
    (hh : env.hstringOk = true) (hn : env.synthNewOk = true)
    (hg : get_selected_voice_information env = .error e) :
    speech_synthesis_stream env t = (.error e, []) := by
  unfold speech_synthesis_stream
  rw [hh, hn, hg]
  rfl

theorem gect_ok {env : Env} (he : env.editHwnd = true) :
    get_edit_control_text env = .ok (env.editText ++ [0]) := by
  unfold get_edit_control_text
  rw [he]
  rfl

theorem gect_err {env : Env} (he : env.editHwnd = false) :
    get_edit_control_text env = .error .noHandle := by
  unfold get_edit_control_text
  rw [he]
  rfl

theorem gsfp_some {env : Env} {buf : List Nat} (hd : env.saveDialog = some buf) :
    get_save_file_path env = .ok (buf.takeWhile (fun c => c != 0)) := by
  unfold get_save_file_path
  rw [hd]

theorem gsfp_none {env : Env} (hd : env.saveDialog = none) :
    get_save_file_path env = .error .pathRequired := by
  unfold get_save_file_path
  rw [hd]

/-- Abandoned dialog: `save_to_wav` stops at `get_save_file_path` with an
    empty trace. -/
theorem save_to_wav_no_dialog {env : Env} (hd : env.saveDialog = none) :
    save_to_wav env = (.error .pathRequired, []) := by
  unfold save_to_wav
  rw [gsfp_none hd]

/-- Fully successful export: the engine stream's 64-bit size is truncated
    to 32 bits, exactly that many bytes are written, and the message box
    names the written file. -/
theorem save_to_wav_ok {env : Env} {buf n : List Nat} {stream : SpeechSynthesisStream}
    (hd : env.saveDialog = some buf) (he : env.editHwnd = true)
    (hs : (speech_synthesis_stream env (env.editText ++ [0])).1 = .ok stream)
    (h1 : env.readerNewOk = true) (h2 : env.sizeOk = true) (h3 : env.loadOk = true)
    (h4 : env.readOk = true) (h5 : env.castOk = true) (h6 : env.bufferOk = true)
    (h7 : env.writeOk = true)
    (hn : fileName (buf.takeWhile (fun c => c != 0)) = some n) :
    save_to_wav env = (.ok (),
      [Ev.synthCall (env.editText ++ [0]),
       Ev.fileWrite (buf.takeWhile (fun c => c != 0))
         ((List.range (stream.size % 2 ^ 32)).map env.streamByte),
       Ev.messageBox n]) := by
  have hsss := sss_eq_of_ok hs
  simp [save_to_wav, gsfp_some hd, gect_ok he, hsss, h1, h2, h3, h4, h5, h6, h7, hn]

theorem clear_ok {env : Env} (stop : List Nat) (he : env.editHwnd = true) :
    clear_edit_control_text env stop = (.ok (), [], Ev.setText [] :: drain stop) := by
  unfold clear_edit_control_text
  rw [he]
  rfl

theorem clear_err {env : Env} (stop : List Nat) (he : env.editHwnd = false) :
    clear_edit_control_text env stop = (.error .noHandle, stop, []) := by
  unfold clear_edit_control_text
  rw [he]
  rfl

theorem speech_ok_iff (env : Env) (stop : List Nat) (sid : Nat) :
    (speech env stop sid).1 = .ok () ↔ env.editHwnd = true := by
  cases he : env.editHwnd
  · unfold speech
    rw [gect_err he]
    simp
  · unfold speech
    rw [gect_ok he]
    simp

theorem speech_no_edit {env : Env} (stop : List Nat) (sid : Nat)
    (he : env.editHwnd = false) :
    speech env stop sid = (.error .noHandle, stop, []) := by
  unfold speech
  rw [gect_err he]

theorem signal_not_mem_speech (env : Env) (stop : List Nat) (sid s : Nat) :
    Ev.signal s ∉ (speech env stop sid).2.2 := by
  cases he : env.editHwnd
  · rw [speech_no_edit stop sid he]
    simp
  · unfold speech
    rw [gect_ok he]
    exact signal_not_mem_session env _ stop sid s

theorem signal_not_mem_save (env : Env) (s : Nat) :
    Ev.signal s ∉ (save_to_wav env).2 := by
  cases hd : env.saveDialog with
  | none => rw [save_to_wav_no_dialog hd]; simp
  | some buf =>
    cases he : env.editHwnd with
    | false => simp [save_to_wav, gsfp_some hd, gect_err he]
    | true =>
      rcases sss_cases env (env.editText ++ [0]) with ⟨e, hse⟩ | hc
      · simp [save_to_wav, gsfp_some hd, gect_ok he, hse]
      · cases hr : env.synthResult (env.editText ++ [0]) with
        | error e => simp [save_to_wav, gsfp_some hd, gect_ok he, hc, hr]
        | ok stream =>
          by_cases b1 : env.readerNewOk = false
          · simp [save_to_wav, gsfp_some hd, gect_ok he, hc, hr, b1]
          by_cases b2 : env.sizeOk = false
          · simp [save_to_wav, gsfp_some hd, gect_ok he, hc, hr, b1, b2]
          by_cases b3 : env.loadOk = false
          · simp [save_to_wav, gsfp_some hd, gect_ok he, hc, hr, b1, b2, b3]
          by_cases b4 : env.readOk = false
          · simp [save_to_wav, gsfp_some hd, gect_ok he, hc, hr, b1, b2, b3, b4]
          by_cases b5 : env.castOk = false
          · simp [save_to_wav, gsfp_some hd, gect_ok he, hc, hr, b1, b2, b3, b4, b5]
          by_cases b6 : env.bufferOk = false
          · simp [save_to_wav, gsfp_some hd, gect_ok he, hc, hr, b1, b2, b3, b4, b5, b6]
          by_cases b7 : env.writeOk = false
          · simp [save_to_wav, gsfp_some hd, gect_ok he, hc, hr, b1, b2, b3, b4, b5, b6, b7]
          cases hfn : fileName (buf.takeWhile (fun c => c != 0)) with
          | none =>
            simp [save_to_wav, gsfp_some hd, gect_ok he, hc, hr, b1, b2, b3, b4, b5, b6, b7, hfn]
          | some n =>
            simp [save_to_wav, gsfp_some hd, gect_ok he, hc, hr, b1, b2, b3, b4, b5, b6, b7, hfn]

theorem command_eq (env : Env) (stop : List Nat) (sid : Nat) (wparam : Nat) :
    command env stop sid wparam =
      (if loword wparam = 5890 then speech env stop sid
       else if loword wparam = 5891 then clear_edit_control_text env stop
       else if loword wparam = 5892 then ((save_to_wav env).1, stop, (save_to_wav env).2)
       else (.ok (), stop, [])) := rfl

/-  Claim theorems  -/

/-- C1 counterexample: the claim "play itself never fails observably to its
    caller ... and never leaves a stale completion-signal sender in the
    STOP vector" is false on the code.  (a) When `EDIT_HWND` is not
    initialized, the text capture at the top of `speech` fails and the
    error propagates to `speech`'s caller through `?`.  (b) When the
    `MediaEnded` listener registration fails — a spawn-setup step — the
    sender already pushed into `STOP` stays there: a stale entry. -/
theorem c1_counterexample :
    (speech envNoEdit [] 0).1 = .error .noHandle ∧
    (session_body envBadListener (envBadListener.editText ++ [0]) [] 5).1 =
      .error .mediaEndedErr ∧
    (session_body envBadListener (envBadListener.editText ++ [0]) [] 5).2.1 = [5] := by
  have hg : get_selected_voice_information envBadListener = .ok ⟨some [65]⟩ := by
    decide
  have hq : get_speaking_rate envBadListener = .ok 1 := by
    norm_num [get_speaking_rate, envBadListener, envOk]
  have hsss : speech_synthesis_stream envBadListener (envBadListener.editText ++ [0]) =
      (.ok ⟨4, true⟩, [Ev.synthCall (envBadListener.editText ++ [0])]) := by
    unfold speech_synthesis_stream
    rw [hg, hq]
    rfl
  have hsb : session_body envBadListener (envBadListener.editText ++ [0]) [] 5 =
      (.error .mediaEndedErr, [5],
        [Ev.synthCall (envBadListener.editText ++ [0]), Ev.playerCreated,
         Ev.registered 5]) := by
    unfold session_body
    rw [hsss]
    rfl
  refine ⟨?_, ?_, ?_⟩
  · rw [speech_no_edit [] 0 rfl]
  · rw [hsb]
  · rw [hsb]

/-- C1 (amended): `play` fails observably to its caller exactly when the
    pre-spawn text capture fails (with the registry untouched in that
    case); every error inside the spawned session is invisible to the
    caller; a session error occurring before the sender is registered
    leaves the registry unchanged, while any path that reaches
    registration — including later listener-registration or playback
    failures — leaves the sender in the registry (only `cancel_all`
    removes it). -/
theorem c1_play_boundary (env : Env) (stop : List Nat) (sid : Nat) :
    ((speech env stop sid).1 = .ok () ↔ env.editHwnd = true) ∧
    (env.editHwnd = false → speech env stop sid = (.error .noHandle, stop, [])) ∧
    (∀ text, (Ev.registered sid ∉ (session_body env text stop sid).2.2 →
        (session_body env text stop sid).2.1 = stop) ∧
      (Ev.registered sid ∈ (session_body env text stop sid).2.2 →
        (session_body env text stop sid).2.1 = stop ++ [sid])) := by
  refine ⟨speech_ok_iff env stop sid, fun he => speech_no_edit stop sid he, fun text => ?_⟩
  exact ⟨(session_body_registry env text stop sid).2,
    (session_body_registry env text stop sid).1⟩

theorem c1_play_boundary_witness : (speech envOk [] 0).1 = .ok () :=
  (c1_play_boundary envOk [] 0).1.mpr rfl

/-- C2: one call to `cancel_all` (the drain in `clear_edit_control_text`)
    returns normally, sends a notification on every completion-signal
    sender currently in `STOP`, and leaves the registry empty; with zero
    sessions registered the drain is a no-op (the trace holds no signal
    events) and the registry stays empty. -/
theorem c2_cancel_all_drains (env : Env) (stop : List Nat) (he : env.editHwnd = true) :
    (clear_edit_control_text env stop).1 = .ok () ∧
    (clear_edit_control_text env stop).2.1 = [] ∧
    (clear_edit_control_text env stop).2.2 = Ev.setText [] :: drain stop ∧
    (∀ s ∈ stop, Ev.signal s ∈ (clear_edit_control_text env stop).2.2) ∧
    (stop = [] → (clear_edit_control_text env stop).2.2 = [Ev.setText []]) := by
  rw [clear_ok stop he]
  refine ⟨rfl, rfl, rfl, fun s hs => ?_, fun h0 => by rw [h0]; rfl⟩
  simp [signal_mem_drain.mpr hs]

theorem c2_cancel_all_drains_witness :
    (clear_edit_control_text envOk [1, 2, 3]).2.1 = [] ∧
    Ev.signal 2 ∈ (clear_edit_control_text envOk [1, 2, 3]).2.2 := by
  obtain ⟨-, hreg, -, hsig, -⟩ := c2_cancel_all_drains envOk [1, 2, 3] rfl
  exact ⟨hreg, hsig 2 (by decide)⟩

/-- C3 counterexample: the claim's example "raw 5 is rejected" is false —
    `get_speaking_rate` on a trackbar position of 5 computes 5 / 10 = 0.5,
    which satisfies `0.5 <= ret && ret <= 2.5`, so raw 5 is accepted as
    0.5 (consistent with the claim's own general rule, which the example
    contradicts). -/
theorem c3_counterexample :
    get_speaking_rate envRate5 = .ok 0.5 := by
  norm_num [get_speaking_rate, envRate5, envOk]

/-- C3 (amended): rate validation divides the raw trackbar value by 10 and
    succeeds iff 0.5 ≤ r/10 ≤ 2.5; raw 5 is accepted as 0.5, raw 10 as
    1.0, raw 25 as 2.5, and raw 26 is rejected with the invalid-rate
    error. -/
theorem c3_rate_validation (env : Env) (ht : env.trackHwnd = true) :
    (∀ q, get_speaking_rate env = .ok q → q = (env.trackPos : ℚ) / 10) ∧
    ((∃ q, get_speaking_rate env = .ok q) ↔
      (0.5 ≤ (env.trackPos : ℚ) / 10 ∧ (env.trackPos : ℚ) / 10 ≤ 2.5)) ∧
    (env.trackPos = 5 → get_speaking_rate env = .ok 0.5) ∧
    (env.trackPos = 10 → get_speaking_rate env = .ok 1) ∧
    (env.trackPos = 25 → get_speaking_rate env = .ok 2.5) ∧
    (env.trackPos = 26 → get_speaking_rate env = .error .invalidRate) := by
  unfold get_speaking_rate
  rw [ht]
  rw [if_neg (by simp : ¬((true : Bool) = false))]
  constructor
  · intro q hq
    split at hq
    · injection hq with hq
      exact hq.symm
    · exact Except.noConfusion hq
  constructor
  · by_cases hcond : 0.5 ≤ (env.trackPos : ℚ) / 10 ∧ (env.trackPos : ℚ) / 10 ≤ 2.5
    · rw [if_pos hcond]
      exact ⟨fun _ => hcond, fun _ => ⟨_, rfl⟩⟩
    · rw [if_neg hcond]
      exact ⟨fun ⟨q, hq⟩ => Except.noConfusion hq, fun hc => absurd hc hcond⟩
  refine ⟨fun h5 => ?_, fun h10 => ?_, fun h25 => ?_, fun h26 => ?_⟩
  · rw [h5, if_pos (by norm_num)]
    norm_num
  · rw [h10, if_pos (by norm_num)]
    norm_num
  · rw [h25, if_pos (by norm_num)]
    norm_num
  · rw [h26, if_neg (by norm_num)]

theorem c3_rate_validation_witness : get_speaking_rate envOk = .ok 1 :=
  (c3_rate_validation envOk rfl).2.2.2.1 rfl

/-- C4: voice resolution (given the combobox handle and a successful
    catalog query) succeeds iff the selected string exactly equals some
    catalog entry's display name — a case-sensitive, full-string match on
    UTF-16 units — returning a matching entry; when nothing is selected or
    no entry matches, it fails with an error of the spec's VoiceNotFound
    class. -/
theorem c4_voice_resolution (env : Env) (hc : env.comboHwnd = true)
    (ha : env.allVoicesOk = true) :
    ((∃ v, get_selected_voice_information env = .ok v) ↔
      (0 ≤ env.curSel ∧ ∃ v ∈ env.voices, v.displayName = some env.selText)) ∧
    (∀ v, get_selected_voice_information env = .ok v →
      v.displayName = some env.selText) ∧
    ((env.curSel < 0 ∨ ∀ v ∈ env.voices, v.displayName ≠ some env.selText) →
      ∃ e, get_selected_voice_information env = .error e ∧ e.isVoiceNotFound = true) :=
  ⟨gsvi_ok_iff env hc ha, fun _ h => gsvi_ok_name h, gsvi_voice_not_found env hc ha⟩

theorem c4_voice_resolution_witness :
    ∃ v, get_selected_voice_information envOk = .ok v :=
  (c4_voice_resolution envOk rfl rfl).1.mpr (by decide)

/-- C5: in every play session where no voice is selected or the selected
    string matches no catalog entry (and the steps before voice resolution
    succeed), the session fails with a VoiceNotFound-class error, no
    player-created event appears in its trace, and the registry is left
    unchanged. -/
theorem c5_voice_not_found_before_player (env : Env) (text stop : List Nat) (sid : Nat)
    (hh : env.hstringOk = true) (hn : env.synthNewOk = true)
    (hc : env.comboHwnd = true) (ha : env.allVoicesOk = true)
    (hv : env.curSel < 0 ∨ ∀ v ∈ env.voices, v.displayName ≠ some env.selText) :
    ∃ e, (session_body env text stop sid).1 = .error e ∧ e.isVoiceNotFound = true ∧
      Ev.playerCreated ∉ (session_body env text stop sid).2.2 ∧
      (session_body env text stop sid).2.1 = stop := by
  obtain ⟨e, hg, hcls⟩ := gsvi_voice_not_found env hc ha hv
  have hb : session_body env text stop sid = (.error e, stop, []) := by
    unfold session_body
    rw [sss_gsvi_error text hh hn hg]
  rw [hb]
  exact ⟨e, rfl, hcls, by simp, rfl⟩

theorem c5_voice_not_found_before_player_witness :
    ∃ e, (session_body envNoSel [0] [] 0).1 = .error e ∧ e.isVoiceNotFound = true ∧
      Ev.playerCreated ∉ (session_body envNoSel [0] [] 0).2.2 ∧
      (session_body envNoSel [0] [] 0).2.1 = [] :=
  c5_voice_not_found_before_player envNoSel [0] [] 0 rfl rfl rfl rfl
    (Or.inl (by decide))

/-- C6: when the destination-path dialog is abandoned or fails,
    `save_to_wav` fails with the path-required error, and its trace is
    empty — no synthesis call, no file write, and no message box. -/
theorem c6_export_abandoned (env : Env) (hd : env.saveDialog = none) :
    save_to_wav env = (.error .pathRequired, []) ∧
    (∀ t, Ev.synthCall t ∉ (save_to_wav env).2) ∧
    (∀ p b, Ev.fileWrite p b ∉ (save_to_wav env).2) ∧
    (∀ m, Ev.messageBox m ∉ (save_to_wav env).2) := by
  rw [save_to_wav_no_dialog hd]
  exact ⟨rfl, by simp, by simp, by simp⟩

theorem c6_export_abandoned_witness :
    save_to_wav envNoDialog = (.error .pathRequired, []) :=
  (c6_export_abandoned envNoDialog rfl).1

/-- C7 counterexample: an otherwise fully valid export (valid text,
    resolvable voice, valid rate, writable path) whose stream declares a
    64-bit size of `2^32` writes a file of 0 bytes — the written byte
    length does not equal the declared size, refuting the claim as
    stated. -/
theorem c7_counterexample :
    envBigStream.synthResult (envBigStream.editText ++ [0]) = .ok ⟨2 ^ 32, true⟩ ∧
    save_to_wav envBigStream = (.ok (),
      [Ev.synthCall (envBigStream.editText ++ [0]),
       Ev.fileWrite [67, 58, 92, 97, 46, 119, 97, 118] [],
       Ev.messageBox [97, 46, 119, 97, 118]]) ∧
    ([] : List Nat).length ≠ 2 ^ 32 := by
  have hg : get_selected_voice_information envBigStream = .ok ⟨some [65]⟩ := by
    decide
  have hq : get_speaking_rate envBigStream = .ok 1 := by
    norm_num [get_speaking_rate, envBigStream, envOk]
  have hsss : (speech_synthesis_stream envBigStream (envBigStream.editText ++ [0])).1 =
      .ok ⟨2 ^ 32, true⟩ := by
    unfold speech_synthesis_stream
    rw [hg, hq]
    rfl
  refine ⟨rfl, ?_, by norm_num⟩
  have h := @save_to_wav_ok envBigStream [67, 58, 92, 97, 46, 119, 97, 118]
    [97, 46, 119, 97, 118] ⟨2 ^ 32, true⟩ rfl rfl hsss rfl rfl rfl rfl rfl rfl rfl
    (by decide)
  rw [h]
  norm_num

/-- C7 (amended): a fully valid export writes a file whose byte length
    equals the synthesized stream's declared 64-bit size reduced modulo
    `2^32` — hence equals the declared size whenever it is below `2^32` —
    and yields the file's display name in the confirmation message box. -/
theorem c7_export_success (env : Env) (buf n : List Nat)
    (stream : SpeechSynthesisStream)
    (hd : env.saveDialog = some buf) (he : env.editHwnd = true)
    (hs : (speech_synthesis_stream env (env.editText ++ [0])).1 = .ok stream)
    (h1 : env.readerNewOk = true) (h2 : env.sizeOk = true) (h3 : env.loadOk = true)
    (h4 : env.readOk = true) (h5 : env.castOk = true) (h6 : env.bufferOk = true)
    (h7 : env.writeOk = true)
    (hn : fileName (buf.takeWhile (fun c => c != 0)) = some n) :
    (save_to_wav env).1 = .ok () ∧
    (∃ bytes, Ev.fileWrite (buf.takeWhile (fun c => c != 0)) bytes ∈ (save_to_wav env).2 ∧
      bytes.length = stream.size % 2 ^ 32 ∧
      (stream.size < 2 ^ 32 → bytes.length = stream.size)) ∧
    Ev.messageBox n ∈ (save_to_wav env).2 := by
  rw [save_to_wav_ok hd he hs h1 h2 h3 h4 h5 h6 h7 hn]
  refine ⟨rfl, ⟨(List.range (stream.size % 2 ^ 32)).map env.streamByte,
    by simp, by simp, ?_⟩, by simp⟩
  intro hlt
  simp only [List.length_map, List.length_range]
  omega

theorem c7_export_success_witness : (save_to_wav envOk).1 = .ok () := by
  have hg : get_selected_voice_information envOk = .ok ⟨some [65]⟩ := by
    decide
  have hq : get_speaking_rate envOk = .ok 1 := by
    norm_num [get_speaking_rate, envOk]
  have hsss : (speech_synthesis_stream envOk (envOk.editText ++ [0])).1 =
      .ok ⟨4, true⟩ := by
    unfold speech_synthesis_stream
    rw [hg, hq]
    rfl
  exact (c7_export_success envOk [67, 58, 92, 97, 46, 119, 97, 118]
    [97, 46, 119, 97, 118] ⟨4, true⟩ rfl rfl hsss rfl rfl rfl rfl rfl rfl rfl
    (by decide)).1

/-- C10: in a successful export the stream's declared 64-bit size is
    truncated modulo `2^32` before loading, reading and writing: the
    written byte count equals `size % 2^32`, which is the declared size
    itself for streams below `2^32` and the reduced value for streams of
    `2^32` bytes or more. -/
theorem c10_size_truncated (env : Env) (buf n : List Nat)
    (stream : SpeechSynthesisStream)
    (hd : env.saveDialog = some buf) (he : env.editHwnd = true)
    (hs : (speech_synthesis_stream env (env.editText ++ [0])).1 = .ok stream)
    (h1 : env.readerNewOk = true) (h2 : env.sizeOk = true) (h3 : env.loadOk = true)
    (h4 : env.readOk = true) (h5 : env.castOk = true) (h6 : env.bufferOk = true)
    (h7 : env.writeOk = true)
    (hn : fileName (buf.takeWhile (fun c => c != 0)) = some n) :
    ∃ bytes, (save_to_wav env).2 =
      [Ev.synthCall (env.editText ++ [0]),
       Ev.fileWrite (buf.takeWhile (fun c => c != 0)) bytes,
       Ev.messageBox n] ∧
      bytes.length = stream.size % 2 ^ 32 ∧
      (stream.size < 2 ^ 32 → bytes.length = stream.size) ∧
      (2 ^ 32 ≤ stream.size → bytes.length = stream.size % 2 ^ 32 ∧
        bytes.length < 2 ^ 32) := by
  rw [save_to_wav_ok hd he hs h1 h2 h3 h4 h5 h6 h7 hn]
  refine ⟨(List.range (stream.size % 2 ^ 32)).map env.streamByte, rfl, by simp, ?_, ?_⟩
  · intro hlt
    simp only [List.length_map, List.length_range]
    omega
  · intro hge
    simp only [List.length_map, List.length_range]
    exact ⟨trivial, by omega⟩

theorem c10_size_truncated_witness :
    ∃ bytes, (save_to_wav envBigStream3).2 =
      [Ev.synthCall (envBigStream3.editText ++ [0]),
       Ev.fileWrite [67, 58, 92, 97, 46, 119, 97, 118] bytes,
       Ev.messageBox [97, 46, 119, 97, 118]] ∧
      bytes.length = (2 ^ 32 + 3) % 2 ^ 32 ∧
      (2 ^ 32 + 3 < 2 ^ 32 → bytes.length = 2 ^ 32 + 3) ∧
      (2 ^ 32 ≤ 2 ^ 32 + 3 → bytes.length = (2 ^ 32 + 3) % 2 ^ 32 ∧
        bytes.length < 2 ^ 32) := by
  have hg : get_selected_voice_information envBigStream3 = .ok ⟨some [65]⟩ := by
    decide
  have hq : get_speaking_rate envBigStream3 = .ok 1 := by
    norm_num [get_speaking_rate, envBigStream3, envOk]
  have hsss : (speech_synthesis_stream envBigStream3 (envBigStream3.editText ++ [0])).1 =
      .ok ⟨2 ^ 32 + 3, true⟩ := by
    unfold speech_synthesis_stream
    rw [hg, hq]
    rfl
  exact c10_size_truncated envBigStream3 [67, 58, 92, 97, 46, 119, 97, 118]
    [97, 46, 119, 97, 118] ⟨2 ^ 32 + 3, true⟩ rfl rfl hsss rfl rfl rfl rfl rfl rfl rfl
    (by decide)

/-- C8: cancellation is not a pure registry drain — whenever a `WM_COMMAND`
    dispatch produces any cancellation signal, the dispatched handler was
    `ID_CLEAR`'s `clear_edit_control_text`, its trace begins with setting
    the edit control's text to empty (before every signal), and the
    registry is left empty; no other command path ever signals, so there
    is no way to cancel without clearing the user's text. -/
theorem c8_cancel_clears_text (env : Env) (stop : List Nat) (sid : Nat)
    (wparam : Nat) (s : Nat)
    (h : Ev.signal s ∈ (command env stop sid wparam).2.2) :
    loword wparam = 5891 ∧
    command env stop sid wparam = clear_edit_control_text env stop ∧
    (command env stop sid wparam).2.2 = Ev.setText [] :: drain stop ∧
    (command env stop sid wparam).2.1 = [] := by
  rw [command_eq] at h ⊢
  by_cases h90 : loword wparam = 5890
  · rw [if_pos h90] at h
    exact absurd h (signal_not_mem_speech env stop sid s)
  rw [if_neg h90] at h ⊢
  by_cases h91 : loword wparam = 5891
  · rw [if_pos h91] at h ⊢
    cases he : env.editHwnd
    · rw [clear_err stop he] at h
      simp at h
    · rw [clear_ok stop he] at h ⊢
      exact ⟨h91, rfl, rfl, rfl⟩
  rw [if_neg h91] at h
  by_cases h92 : loword wparam = 5892
  · rw [if_pos h92] at h
    exact absurd h (signal_not_mem_save env s)
  rw [if_neg h92] at h
  simp at h

theorem c8_cancel_clears_text_witness :
    (command envOk [7] 0 5891).2.2 = Ev.setText [] :: drain [7] ∧
    (command envOk [7] 0 5891).2.1 = [] := by
  have h : Ev.signal 7 ∈ (command envOk [7] 0 5891).2.2 := by decide
  obtain ⟨-, -, htr, hreg⟩ := c8_cancel_clears_text envOk [7] 0 5891 7 h
  exact ⟨htr, hreg⟩

/-- C9: the captured text buffer is the edit control's text plus a
    terminating UTF-16 0 — its length is exactly the control's reported
    text length plus one and its final element is 0; when the control is
    empty the captured buffer is `[0]`, never the empty sequence. -/
theorem c9_text_buffer (env : Env) (he : env.editHwnd = true) :
    get_edit_control_text env = .ok (env.editText ++ [0]) ∧
    (env.editText ++ [0]).length = env.editText.length + 1 ∧
    (env.editText ++ [0]).getLast? = some 0 ∧
    (env.editText = [] → get_edit_control_text env = .ok [0]) := by
  refine ⟨gect_ok he, by simp, by simp, ?_⟩
  intro h0
  rw [gect_ok he, h0]
  rfl

theorem c9_text_buffer_witness :
    get_edit_control_text envOk = .ok [104, 101, 108, 108, 111, 0] :=
  (c9_text_buffer envOk rfl).1

end Speech
